import Mathlib

/-!
Verification of the GitHub organization backup tool (`backup_org.py` and its
deletion companion `cleanup_backups.py`).

The Python program is shallowly embedded: network responses, subprocess
outcomes and filesystem facts are supplied as explicit oracle values, and
each Python function becomes a Lean function over those oracles that mirrors
the source control flow.  Statistics are a record; side effects relevant to
the claims (dry-run log lines, job dispatch, pipeline steps, push refspecs)
are materialised as explicit traces.
-/

set_option maxRecDepth 4000

/-- A repository descriptor as fetched from the listing API.  Mirrors the
fields of the JSON objects that `backup_org.py` reads: `name`, `private`,
`clone_url`, `description`.  (`private` is a Lean keyword, hence `isPrivate`.) -/
structure RepoData where
  name : String
  isPrivate : Bool
  clone_url : String
  description : String
  deriving DecidableEq, Repr

/-- Substring test, modelling Python's `pat in s`. -/
def strContains (s pat : String) : Bool :=
  decide (pat.data <:+: s.data)

/-- Python's `str.lower()` (over the character list, so that it evaluates
inside the kernel). -/
def strToLower (s : String) : String :=
  ⟨s.data.map Char.toLower⟩

/-- Python's `s.startswith(pre)` (over the character lists, so that it
evaluates inside the kernel). -/
def strStartsWith (s pre : String) : Bool :=
  decide (pre.data <+: s.data)

/-- Zero-padded two-digit decimal rendering of `n`, as produced by
`strftime` fields `%m` / `%d` (for `n < 100`). -/
def pad2 (n : Nat) : String :=
  ⟨[Char.ofNat (48 + n / 10), Char.ofNat (48 + n % 10)]⟩

/-- Zero-padded four-digit decimal rendering of `n`, as produced by
`strftime` field `%Y` (for years below 10000). -/
def pad4 (n : Nat) : String :=
  ⟨[Char.ofNat (48 + n / 1000), Char.ofNat (48 + n / 100 % 10),
    Char.ofNat (48 + n / 10 % 10), Char.ofNat (48 + n % 10)]⟩

/-- `datetime.now().strftime("%Y%m%d-")` for the date `y-m-d`:
the 8-digit year-month-day string followed by a hyphen. -/
def formatDate (y m d : Nat) : String :=
  pad4 y ++ pad2 m ++ pad2 d ++ "-"

/-- The effective repository-name prefix computed in `GitHubOrgBackup.__init__`
(lines 47-50): when `include_date_prefix` is set, the date string is
prepended to the literal `repo_prefix`; otherwise the literal value is used. -/
def effectivePre (litPre : String) (includeDate : Bool) (y m d : Nat) : String :=
  if includeDate then formatDate y m d ++ litPre else litPre

/-- `get_dest_repo_name` (line 146-148): the configured prefix concatenated
before the original name.  `pre` is the value of `self.repo_prefix` after
`__init__` ran. -/
def get_dest_repo_name (pre original_name : String) : String :=
  pre ++ original_name

/-- The `self.stats` dictionary of `GitHubOrgBackup`. -/
structure Stats where
  total_repos : Nat
  successful : Nat
  failed : Nat
  skipped : Nat
  deriving DecidableEq, Repr

/-- The statistics dictionary as initialised in `__init__` (lines 60-65). -/
def initStats : Stats :=
  { total_repos := 0, successful := 0, failed := 0, skipped := 0 }

/-- Outcome of `future.result()` for one dispatched repository job:
either the boolean returned by `backup_repository`, or an exception
escaping the worker. -/
inductive FutureResult where
  | ok (b : Bool)
  | exn
  deriving DecidableEq, Repr

/-- One iteration of the `as_completed` loop in `run_backup`
(lines 409-419): a `True` result increments `successful`; a `False`
result or an exception from the worker increments `failed`. -/
def recordOutcome (s : Stats) (r : FutureResult) : Stats :=
  match r with
  | .ok true => { s with successful := s.successful + 1 }
  | .ok false => { s with failed := s.failed + 1 }
  | .exn => { s with failed := s.failed + 1 }

/-- The include/exclude filtering of `run_backup` (lines 382-385).
Python's `if include_only:` is falsy both for `None` and for an empty
set, so an empty include-only set disables the include filter. -/
def applyFilters (repos : List RepoData) (include_only : Option (List String))
    (exclude_repos : List String) : List RepoData :=
  let r1 := match include_only with
    | none => repos
    | some incl => if incl.isEmpty then repos else repos.filter (fun r => incl.contains r.name)
  r1.filter (fun r => !exclude_repos.contains r.name)

/-- Externally visible actions of `run_backup` that the claims talk about:
a dry-run log line (source name, destination name, visibility) or the
dispatch of a pipeline job to the worker pool. -/
inductive Effect where
  | logDryRun (src dest : String) (isPrivate : Bool)
  | dispatchJob (name : String)
  deriving DecidableEq, Repr

/-- Result of a `run_backup` call: final statistics plus the trace of
dry-run log lines / job dispatches. -/
structure RunResult where
  stats : Stats
  effects : List Effect
  deriving DecidableEq, Repr

/-- `run_backup` (lines 368-429), after the listing succeeded, over the
worker-boundary abstraction: `repos` is the fetched repository list,
`outcomes` gives, for each dispatched job, what `future.result()` yields
(`backup_repository`'s boolean, or an exception — the `try/except` at
lines 411-419 converts either into a counter update, so nothing escapes
the loop).  In a dry run the function logs one destination name per
filtered repository and returns before any job is dispatched. -/
def run_backup (pre : String) (repos : List RepoData)
    (include_only : Option (List String)) (exclude_repos : List String)
    (dry_run : Bool) (outcomes : List FutureResult) : RunResult :=
  let filtered := applyFilters repos include_only exclude_repos
  let s0 : Stats := { initStats with total_repos := filtered.length }
  if dry_run then
    { stats := s0
      effects := filtered.map (fun r =>
        Effect.logDryRun r.name (get_dest_repo_name pre r.name) r.isPrivate) }
  else
    { stats := outcomes.foldl recordOutcome s0
      effects := filtered.map (fun r => Effect.dispatchJob r.name) }

/-! ## Paginated listers -/

/-- What one `session.get` of a listing page yields: a JSON page of
repositories, a rate-limited 403 response, or a transport exception
(`requests.exceptions.RequestException`). -/
inductive PageResp where
  | ok (repos : List RepoData)
  | rateLimited
  | exn
  deriving DecidableEq, Repr

/-- Outcome of a pagination loop: a returned list, a re-raised exception,
or exhaustion of the fuel bounding the loop in this embedding. -/
inductive FetchResult where
  | result (repos : List RepoData)
  | raised
  | outOfFuel
  deriving DecidableEq, Repr

/-- The `while True` pagination loop of `GitHubOrgBackup.get_repositories`
(lines 107-141) with explicit accumulator and fuel.  A rate-limited 403
sleeps and retries the same page; an empty page ends the loop returning
the accumulated list; a transport exception is logged and re-raised. -/
def fetch_pages (pages : Nat → PageResp) : Nat → Nat → List RepoData → FetchResult
  | 0, _, _ => .outOfFuel
  | fuel + 1, page, acc =>
    match pages page with
    | .rateLimited => fetch_pages pages fuel page acc
    | .exn => .raised
    | .ok [] => .result acc
    | .ok l => fetch_pages pages fuel (page + 1) (acc ++ l)

/-- `GitHubOrgBackup.get_repositories` (lines 99-144): start at page 1
with an empty accumulator. -/
def get_repositories (pages : Nat → PageResp) (fuel : Nat) : FetchResult :=
  fetch_pages pages fuel 1 []

/-- The pagination loop of `GitHubCleanup.get_repositories` in
`cleanup_backups.py` (lines 54-82): each page is filtered by the name
prefix before being accumulated; there is no rate-limit branch, so a 403
makes `raise_for_status` raise, and every `RequestException` is caught
and converted into `return []`, discarding all pages fetched so far. -/
def cleanup_fetch_pages (pre : String) (pages : Nat → PageResp) :
    Nat → Nat → List RepoData → FetchResult
  | 0, _, _ => .outOfFuel
  | fuel + 1, page, acc =>
    match pages page with
    | .rateLimited => .result []
    | .exn => .result []
    | .ok [] => .result acc
    | .ok l => cleanup_fetch_pages pre pages fuel (page + 1)
        (acc ++ l.filter (fun r => strStartsWith r.name pre))

/-- `GitHubCleanup.get_repositories` (lines 48-84): start at page 1 with
an empty accumulator. -/
def cleanup_get_repositories (pre : String) (pages : Nat → PageResp) (fuel : Nat) :
    FetchResult :=
  cleanup_fetch_pages pre pages fuel 1 []

/-! ## Ref transfer protocol (`push_repository`) -/

/-- Outcome of `git for-each-ref --format=%(refname) refs/` on the local
mirror: the list of ref names (one per output line), or a nonzero exit /
exception, which `push_repository` turns into `return False`. -/
inductive RefsResult where
  | ok (refs : List String)
  | err
  deriving Repr

/-- Worker for `chunks`, structurally recursive on a fuel argument so that
it evaluates by `decide`.  Each step emits the slice `l[:n]` and recurses
on `l[n:]`; the fuel `l.length` always suffices for `n > 0`. -/
def chunksGo : Nat → Nat → List α → List (List α)
  | 0, _, _ => []
  | _ + 1, _, [] => []
  | fuel + 1, n, a :: l => (a :: l).take n :: chunksGo fuel n ((a :: l).drop n)

/-- The batching loop `for i in range(0, len(valid_refs), batch_size)`
(line 271): successive slices `l[i:i+n]` of the ref list. -/
def chunks (n : Nat) (l : List α) : List (List α) :=
  chunksGo l.length n l

/-- The refspec `f"{ref}:{ref}"` built for each pushed ref (lines 275, 285). -/
def mkRefspec (r : String) : String := r ++ ":" ++ r

/-- Oracle for one `push_repository` call: the ref enumeration outcome,
whether the clone path exists, the exit status of each batch push command,
the exit status of each individual-ref push, and whether a
`TimeoutExpired` or other exception is raised during batch orchestration
(caught at lines 305-310). -/
structure PushEnv where
  clonePathExists : Bool
  refsResult : RefsResult
  batchOk : List String → Bool
  singleOk : String → Bool
  raisesExn : Bool

/-- Observable result of `push_repository`: every refspec list passed to a
batch `git push` (line 275), every refspec passed to an individual retry
push (line 285), the refs recorded as hard failures (line 294), and the
returned boolean. -/
structure PushTrace where
  batchPushes : List (List String)
  singlePushes : List String
  failedRefs : List String
  result : Bool

/-- `push_repository` (lines 233-310).  Refs are filtered to drop empty
lines and `refs/pull/` refs (line 263); if none remain the push succeeds
vacuously (line 267); otherwise refs are pushed in batches of 50, each
failed batch is retried ref-by-ref, individual failures are only logged
(hard-failure refs collected at line 294), and the function returns
`True` (line 300) unless an exception or timeout escaped the loop.
When an exception is raised mid-loop the trace fields still list every
refspec the full loop would build, a superset of those actually attempted;
the claims quantify over this superset. -/
def push_repository (env : PushEnv) : PushTrace :=
  if !env.clonePathExists then
    { batchPushes := [], singlePushes := [], failedRefs := [], result := false }
  else
    match env.refsResult with
    | .err => { batchPushes := [], singlePushes := [], failedRefs := [], result := false }
    | .ok all_refs =>
      let valid_refs := all_refs.filter (fun r => !(r == "") && !(strStartsWith r "refs/pull/"))
      if valid_refs.isEmpty then
        { batchPushes := [], singlePushes := [], failedRefs := [], result := true }
      else
        let bs := chunks 50 valid_refs
        let failedBatches := bs.filter (fun b => !env.batchOk b)
        { batchPushes := bs.map (fun b => b.map mkRefspec)
          singlePushes := failedBatches.flatMap (fun b => b.map mkRefspec)
          failedRefs := failedBatches.flatMap (fun b => b.filter (fun r => !env.singleOk r))
          result := !env.raisesExn }

/-! ## Destination repository creation and the per-repository pipeline -/

/-- What `self.dest_session.post` returns in `create_repository`: an HTTP
status code together with the JSON `message` field, or a transport
exception. -/
inductive CreateResp where
  | status (code : Nat) (message : String)
  | exn
  deriving DecidableEq, Repr

/-- `create_repository` (lines 160-202): 201 is success; a 422 whose
message contains `already exists` (case-insensitively) is treated as
success; any other 422 message, any other status code, and any transport
exception yield `False`. -/
def create_repository (resp : CreateResp) : Bool :=
  match resp with
  | .exn => false
  | .status code message =>
    if code = 201 then true
    else if code = 422 then strContains (strToLower message) "already exists"
    else false

/-- Outcome of `git clone --mirror` in `clone_repository` (lines 204-231):
on success the mirror directory exists at the clone path; on failure
(nonzero exit, timeout, or exception — all converted to `False` inside
`clone_repository`) a partial directory may or may not remain, recorded
by `pathRemains` (a timeout kills git after it created the target
directory, leaving a partial mirror behind). -/
inductive CloneOutcome where
  | success
  | failure (pathRemains : Bool)
  deriving DecidableEq, Repr

/-- Pipeline steps of `backup_repository`, in source order. -/
inductive Step where
  | checkExists
  | createRepo
  | cloneRepo
  | verifyMirror
  | pushRepo
  deriving DecidableEq, Repr

/-- Oracle for one `backup_repository` call: whether `clone_dir.mkdir`
raises, the result of the destination existence check (`repository_exists`
absorbs transport exceptions into `False`), the creation response, the
clone outcome, whether the cloned path contains both `refs` and `objects`
(line 341), the push oracle, whether an unexpected exception is raised
during the push step (escaping to the outer handler at line 357), and
whether `shutil.rmtree` succeeds when invoked. -/
structure JobEnv where
  mkdirRaises : Bool
  repoExists : Bool
  createResp : CreateResp
  cloneOutcome : CloneOutcome
  validMirror : Bool
  pushEnv : PushEnv
  raiseDuringPush : Bool
  removeOk : Bool

/-- Observable outcome of `backup_repository`: the returned boolean,
whether the unique clone path still exists on disk after the return,
whether the guarded-removal cleanup block (lines 349-353 / 360-364) was
executed, and the pipeline steps that ran. -/
structure JobOutcome where
  success : Bool
  pathExists : Bool
  cleanupRun : Bool
  steps : List Step
  deriving DecidableEq, Repr

/-- `backup_repository` (lines 312-366).  Control flow, in source order:
`clone_dir.mkdir` (an exception goes to the outer handler, which runs the
guarded cleanup — the path was never created, so `rmtree` is skipped);
existence check and conditional creation, with `return False` (line 329)
when creation fails; mirror clone with `return False` (line 333) on
failure; the `refs`/`objects` verification with `return False`
(lines 338, 343) when it fails; push; then the cleanup block, and
`return success`.  An exception after the clone lands in the outer
handler, which also runs the guarded cleanup.  Note that the three early
`return False` paths do not execute any cleanup block. -/
def backup_repository (env : JobEnv) : JobOutcome :=
  if env.mkdirRaises then
    { success := false, pathExists := false, cleanupRun := true, steps := [] }
  else if !env.repoExists && !create_repository env.createResp then
    { success := false, pathExists := false, cleanupRun := false
      steps := [Step.checkExists, Step.createRepo] }
  else
    let steps1 := if env.repoExists then [Step.checkExists]
      else [Step.checkExists, Step.createRepo]
    match env.cloneOutcome with
    | .failure pathRemains =>
      { success := false, pathExists := pathRemains, cleanupRun := false
        steps := steps1 ++ [Step.cloneRepo] }
    | .success =>
      if !env.validMirror then
        { success := false, pathExists := true, cleanupRun := false
          steps := steps1 ++ [Step.cloneRepo, Step.verifyMirror] }
      else if env.raiseDuringPush then
        { success := false, pathExists := !env.removeOk, cleanupRun := true
          steps := steps1 ++ [Step.cloneRepo, Step.verifyMirror, Step.pushRepo] }
      else
        { success := (push_repository { env.pushEnv with clonePathExists := true }).result
          pathExists := !env.removeOk, cleanupRun := true
          steps := steps1 ++ [Step.cloneRepo, Step.verifyMirror, Step.pushRepo] }

/-! ## Concrete data for witnesses -/

/-- A minimal repository descriptor used by concrete witnesses. -/
def demoRepo (n : String) : RepoData :=
  { name := n, isPrivate := false, clone_url := "", description := "" }

/-- A push oracle on which every batch push and every individual retry
fails, yet no exception is raised: the worst non-exceptional push. -/
def demoPushEnv : PushEnv :=
  { clonePathExists := true
    refsResult := .ok ["refs/heads/main", "refs/pull/1/head", "refs/tags/v1", ""]
    batchOk := fun _ => false
    singleOk := fun _ => false
    raisesExn := false }

/-- A job oracle for a repository whose destination is absent and whose
creation answers 422 `name already exists`: the happy idempotent path. -/
def demoJobEnv : JobEnv :=
  { mkdirRaises := false
    repoExists := false
    createResp := .status 422 "Repository creation failed: name already exists on this account"
    cloneOutcome := .success
    validMirror := true
    pushEnv := demoPushEnv
    raiseDuringPush := false
    removeOk := true }

/-- The same job but with a fatal creation error (403 response). -/
def demoJobEnvCreateFail : JobEnv :=
  { demoJobEnv with createResp := .status 403 "Forbidden" }

/-- The same job but whose clone is killed by the timeout after git created
the target directory: `clone_repository` returns `False` and a partial
mirror remains on disk. -/
def demoJobEnvCloneTimeout : JobEnv :=
  { demoJobEnv with cloneOutcome := .failure true }

/-- The same job but whose cloned path fails the `refs`/`objects`
verification of line 341 while existing on disk. -/
def demoJobEnvBadMirror : JobEnv :=
  { demoJobEnv with validMirror := false }

/-- A full first page of 100 distinct repositories. -/
def page100 : List RepoData :=
  (List.range 100).map (fun i => demoRepo ("r" ++ toString i))

/-- A second page of 20 further distinct repositories. -/
def page20 : List RepoData :=
  (List.range 20).map (fun i => demoRepo ("r" ++ toString (100 + i)))

/-- A listing host answering page 1 with 100 repositories, page 2 with 20
and every later page empty. -/
def demoPages : Nat → PageResp := fun i =>
  if i = 1 then .ok page100 else if i = 2 then .ok page20 else .ok []

/-- A host whose first page succeeds and whose second page raises a
transport error. -/
def demoPagesExn : Nat → PageResp := fun i =>
  if i = 1 then .ok [demoRepo "bk-x", demoRepo "other"] else .exn

/-! ## Helper lemmas -/

theorem chunksGo_subset (fuel n : Nat) (l b : List α) (hb : b ∈ chunksGo fuel n l) :
    ∀ x ∈ b, x ∈ l := by
  induction fuel generalizing l b with
  | zero => simp [chunksGo] at hb
  | succ fuel ih =>
    cases l with
    | nil => simp [chunksGo] at hb
    | cons a l =>
      rw [chunksGo] at hb
      rcases List.mem_cons.mp hb with rfl | h
      · exact fun x hx => List.take_subset _ _ hx
      · exact fun x hx => List.drop_subset _ _ (ih _ _ h x hx)

theorem chunks_subset (n : Nat) (l b : List α) (hb : b ∈ chunks n l) :
    ∀ x ∈ b, x ∈ l :=
  chunksGo_subset l.length n l b hb

theorem digit_ofNat (k : Nat) (hk : k < 10) : (Char.ofNat (48 + k)).isDigit = true := by
  interval_cases k <;> decide

theorem recordOutcome_foldl (outcomes : List FutureResult) (s : Stats) :
    (outcomes.foldl recordOutcome s).successful + (outcomes.foldl recordOutcome s).failed
        = s.successful + s.failed + outcomes.length
    ∧ (outcomes.foldl recordOutcome s).total_repos = s.total_repos
    ∧ (outcomes.foldl recordOutcome s).skipped = s.skipped := by
  induction outcomes generalizing s with
  | nil => simp
  | cons o os ih =>
    have h := ih (recordOutcome s o)
    rcases h with ⟨h1, h2, h3⟩
    simp only [List.foldl_cons, List.length_cons]
    refine ⟨?_, ?_, ?_⟩ <;>
      cases o with
      | ok b => cases b <;> (simp [recordOutcome] at h1 h2 h3 ⊢; omega)
      | exn =>
        simp [recordOutcome] at h1 h2 h3 ⊢
        omega

/-! ## Claim theorems -/

/-- C7: `get_dest_repo_name` is the pure function prepending the configured
prefix to the source name; when the date option is on, the effective prefix
is composed from the date string (8 digits and a hyphen, via
`strftime("%Y%m%d-")`) and the literal prefix; equal inputs give equal
outputs, and outputs differ only when the prefix or the source name
differs. -/
theorem get_dest_repo_name_pure (litPre p1 p2 n1 n2 : String) (y m d : Nat)
    (hy : y < 10000) (hm : m < 100) (hd : d < 100) :
    get_dest_repo_name p1 n1 = p1 ++ n1
    ∧ (p1 = p2 → n1 = n2 → get_dest_repo_name p1 n1 = get_dest_repo_name p2 n2)
    ∧ (get_dest_repo_name p1 n1 ≠ get_dest_repo_name p2 n2 → p1 ≠ p2 ∨ n1 ≠ n2)
    ∧ effectivePre litPre false y m d = litPre
    ∧ effectivePre litPre true y m d = formatDate y m d ++ litPre
    ∧ formatDate y m d = (pad4 y ++ pad2 m ++ pad2 d) ++ "-"
    ∧ (pad4 y ++ pad2 m ++ pad2 d).length = 8
    ∧ ∀ c ∈ (pad4 y ++ pad2 m ++ pad2 d).data, c.isDigit = true := by
  refine ⟨rfl, ?_, ?_, rfl, rfl, ?_, ?_, ?_⟩
  · intro hp hn
    rw [hp, hn]
  · intro hne
    by_contra hc
    push_neg at hc
    exact hne (by rw [hc.1, hc.2])
  · rfl
  · simp [pad4, pad2, String.length_append, String.length_mk]
  · intro c hc
    simp only [String.data_append, pad4, pad2, List.mem_append, List.mem_cons,
      List.not_mem_nil, or_false] at hc
    rcases hc with ((h | h | h | h) | (h | h)) | (h | h) <;>
      (subst h; apply digit_ofNat; omega)

/-- C7 witness: the theorem at a concrete date and concrete names, with the
definitions evaluated on them. -/
theorem get_dest_repo_name_pure_witness :
    (2025 < 10000 ∧ 8 < 100 ∧ 29 < 100)
    ∧ get_dest_repo_name "20250829-backup-" "repo" = "20250829-backup-repo"
    ∧ effectivePre "backup-" true 2025 8 29 = "20250829-backup-"
    ∧ (get_dest_repo_name "a-" "x" ≠ get_dest_repo_name "b-" "x" → "a-" ≠ "b-" ∨ "x" ≠ "x") :=
  ⟨by omega, by decide, by decide,
    (get_dest_repo_name_pure "backup-" "a-" "b-" "x" "x" 2025 8 29
      (by decide) (by decide) (by decide)).2.2.1⟩

/-- C9: the `skipped` statistics field is initialised to 0 and no operation
of the backup run ever changes it: it is 0 in the initial state, after any
prefix of the completion loop, and in the final statistics of any run,
dry or not. -/
theorem stats_skipped_always_zero (pre : String) (repos : List RepoData)
    (include_only : Option (List String)) (exclude_repos : List String)
    (dry_run : Bool) (outcomes : List FutureResult) (k : Nat) :
    initStats.skipped = 0
    ∧ ((outcomes.take k).foldl recordOutcome
        { initStats with
          total_repos := (applyFilters repos include_only exclude_repos).length }).skipped = 0
    ∧ (run_backup pre repos include_only exclude_repos dry_run outcomes).stats.skipped = 0 := by
  refine ⟨rfl, ?_, ?_⟩
  · have h := (recordOutcome_foldl (outcomes.take k)
      { initStats with
        total_repos := (applyFilters repos include_only exclude_repos).length }).2.2
    simpa [initStats] using h
  · cases dry_run with
    | false =>
      have h := (recordOutcome_foldl outcomes
        { initStats with
          total_repos := (applyFilters repos include_only exclude_repos).length }).2.2
      simpa [run_backup, initStats] using h
    | true => simp [run_backup, initStats]

/-- C1: after a non-dry run, `successful + failed` equals `total_repos`,
which is the number of repositories left after include/exclude filtering;
each dispatched repository contributes exactly one completion outcome
(`outcomes` has one entry per filtered repository), and an outcome may be
an exception, which is absorbed into the `failed` counter rather than
propagated out of the completion loop. -/
theorem run_backup_counts_complete (pre : String) (repos : List RepoData)
    (include_only : Option (List String)) (exclude_repos : List String)
    (outcomes : List FutureResult)
    (h : outcomes.length = (applyFilters repos include_only exclude_repos).length) :
    (run_backup pre repos include_only exclude_repos false outcomes).stats.successful
        + (run_backup pre repos include_only exclude_repos false outcomes).stats.failed
      = (run_backup pre repos include_only exclude_repos false outcomes).stats.total_repos
    ∧ (run_backup pre repos include_only exclude_repos false outcomes).stats.total_repos
      = (applyFilters repos include_only exclude_repos).length := by
  have hf := recordOutcome_foldl outcomes
    { initStats with total_repos := (applyFilters repos include_only exclude_repos).length }
  rcases hf with ⟨h1, h2, _⟩
  simp only [run_backup, Bool.false_eq_true, if_false, initStats] at *
  constructor
  · rw [h1, h2]
    simp [h]
  · exact h2

/-- C1 witness: three dispatched repositories completing as success,
failure and exception give `successful = 1`, `failed = 2`,
`total_repos = 3`. -/
theorem run_backup_counts_complete_witness :
    ([FutureResult.ok true, FutureResult.ok false, FutureResult.exn].length
      = (applyFilters [demoRepo "a", demoRepo "b", demoRepo "c"] none []).length)
    ∧ ((run_backup "" [demoRepo "a", demoRepo "b", demoRepo "c"] none [] false
          [FutureResult.ok true, FutureResult.ok false, FutureResult.exn]).stats
        = { total_repos := 3, successful := 1, failed := 2, skipped := 0 })
    ∧ ((run_backup "" [demoRepo "a", demoRepo "b", demoRepo "c"] none [] false
          [FutureResult.ok true, FutureResult.ok false, FutureResult.exn]).stats.successful
          + (run_backup "" [demoRepo "a", demoRepo "b", demoRepo "c"] none [] false
          [FutureResult.ok true, FutureResult.ok false, FutureResult.exn]).stats.failed
        = (run_backup "" [demoRepo "a", demoRepo "b", demoRepo "c"] none [] false
          [FutureResult.ok true, FutureResult.ok false, FutureResult.exn]).stats.total_repos
      ∧ (run_backup "" [demoRepo "a", demoRepo "b", demoRepo "c"] none [] false
          [FutureResult.ok true, FutureResult.ok false, FutureResult.exn]).stats.total_repos
        = (applyFilters [demoRepo "a", demoRepo "b", demoRepo "c"] none []).length) :=
  ⟨by decide, by decide,
    run_backup_counts_complete "" [demoRepo "a", demoRepo "b", demoRepo "c"] none []
      [FutureResult.ok true, FutureResult.ok false, FutureResult.exn] (by decide)⟩

/-- C8: a dry run emits exactly one dry-run log line per filtered
repository, each announcing the destination name formed by the configured
prefix concatenated before the source name, and dispatches no pipeline
job — hence no destination-create, clone or push is performed. -/
theorem run_backup_dry_run_effects (pre : String) (repos : List RepoData)
    (include_only : Option (List String)) (exclude_repos : List String)
    (outcomes : List FutureResult) :
    (run_backup pre repos include_only exclude_repos true outcomes).effects
      = (applyFilters repos include_only exclude_repos).map
          (fun r => Effect.logDryRun r.name (pre ++ r.name) r.isPrivate)
    ∧ (run_backup pre repos include_only exclude_repos true outcomes).effects.length
      = (applyFilters repos include_only exclude_repos).length
    ∧ (∀ e ∈ (run_backup pre repos include_only exclude_repos true outcomes).effects,
        ∃ src priv, e = Effect.logDryRun src (pre ++ src) priv)
    ∧ (∀ e ∈ (run_backup pre repos include_only exclude_repos true outcomes).effects,
        ∀ n, e ≠ Effect.dispatchJob n) := by
  have heff : (run_backup pre repos include_only exclude_repos true outcomes).effects
      = (applyFilters repos include_only exclude_repos).map
          (fun r => Effect.logDryRun r.name (pre ++ r.name) r.isPrivate) := by
    simp [run_backup, get_dest_repo_name]
  refine ⟨heff, ?_, ?_, ?_⟩
  · rw [heff]
    simp
  · rw [heff]
    intro e he
    rcases List.mem_map.mp he with ⟨r, _, rfl⟩
    exact ⟨r.name, r.isPrivate, rfl⟩
  · rw [heff]
    intro e he n
    rcases List.mem_map.mp he with ⟨r, _, rfl⟩
    simp

/-- C8 witness: a dry run over two repositories with prefix `bk-`
produces exactly the two prefixed log lines and nothing else. -/
theorem run_backup_dry_run_effects_witness :
    ((run_backup "bk-" [demoRepo "alpha", demoRepo "beta"] none [] true []).effects
      = [Effect.logDryRun "alpha" "bk-alpha" false, Effect.logDryRun "beta" "bk-beta" false])
    ∧ ((run_backup "bk-" [demoRepo "alpha", demoRepo "beta"] none [] true []).effects.length
      = (applyFilters [demoRepo "alpha", demoRepo "beta"] none []).length)
    ∧ (∀ e ∈ (run_backup "bk-" [demoRepo "alpha", demoRepo "beta"] none [] true []).effects,
        ∀ n, e ≠ Effect.dispatchJob n) :=
  ⟨by decide,
    (run_backup_dry_run_effects "bk-" [demoRepo "alpha", demoRepo "beta"] none [] []).2.1,
    (run_backup_dry_run_effects "bk-" [demoRepo "alpha", demoRepo "beta"] none [] []).2.2.2⟩

/-- C3: every refspec built by `push_repository` — in a batch push as well
as in an individual-ref retry — is `r ++ ":" ++ r` for a ref `r` that does
not begin with `refs/pull/`. -/
theorem push_refspecs_no_pull_refs (env : PushEnv) :
    (∀ b ∈ (push_repository env).batchPushes, ∀ s ∈ b,
        ∃ r, s = r ++ ":" ++ r ∧ strStartsWith r "refs/pull/" = false)
    ∧ (∀ s ∈ (push_repository env).singlePushes,
        ∃ r, s = r ++ ":" ++ r ∧ strStartsWith r "refs/pull/" = false) := by
  cases hcp : env.clonePathExists with
  | false => simp [push_repository, hcp]
  | true =>
    cases hres : env.refsResult with
    | err => simp [push_repository, hcp, hres]
    | ok all_refs =>
      have hval : ∀ r ∈ all_refs.filter (fun r => !(r == "") && !(strStartsWith r "refs/pull/")),
          strStartsWith r "refs/pull/" = false := by
        intro r hr
        have h2 := (List.mem_filter.mp hr).2
        simp only [Bool.and_eq_true, Bool.not_eq_true'] at h2
        exact h2.2
      cases hv : (all_refs.filter (fun r => !(r == "") && !(strStartsWith r "refs/pull/"))).isEmpty with
      | true => simp [push_repository, hcp, hres, hv]
      | false =>
        constructor
        · intro b hb s hs
          simp only [push_repository, hcp, hres, hv, Bool.not_true, Bool.false_eq_true,
            if_false] at hb
          rcases List.mem_map.mp hb with ⟨b0, hb0, rfl⟩
          rcases List.mem_map.mp hs with ⟨r, hr, rfl⟩
          exact ⟨r, rfl, hval r (chunks_subset _ _ _ hb0 r hr)⟩
        · intro s hs
          simp only [push_repository, hcp, hres, hv, Bool.not_true, Bool.false_eq_true,
            if_false] at hs
          rcases List.mem_flatMap.mp hs with ⟨b0, hb0, hsb⟩
          rcases List.mem_map.mp hsb with ⟨r, hr, rfl⟩
          have hb0m : b0 ∈ chunks 50 (all_refs.filter
              (fun r => !(r == "") && !(strStartsWith r "refs/pull/"))) :=
            List.mem_of_mem_filter hb0
          exact ⟨r, rfl, hval r (chunks_subset _ _ _ hb0m r hr)⟩

/-- C3 witness: on the concrete worst-case push oracle, the batch refspecs
are exactly the two non-pull refs and the retry refspecs repeat them. -/
theorem push_refspecs_no_pull_refs_witness :
    ((push_repository demoPushEnv).batchPushes
        = [["refs/heads/main:refs/heads/main", "refs/tags/v1:refs/tags/v1"]])
    ∧ ((push_repository demoPushEnv).singlePushes
        = ["refs/heads/main:refs/heads/main", "refs/tags/v1:refs/tags/v1"])
    ∧ (∀ s ∈ (push_repository demoPushEnv).singlePushes,
        ∃ r, s = r ++ ":" ++ r ∧ strStartsWith r "refs/pull/" = false) :=
  ⟨by decide, by decide, (push_refspecs_no_pull_refs demoPushEnv).2⟩

/-- C4: whenever the clone path is present, ref enumeration succeeds and no
exception or timeout escapes the batch loop, `push_repository` returns
`True` — for every combination of batch and individual push exit statuses,
and in particular vacuously when no transferable ref remains after
filtering. -/
theorem push_repository_success_despite_failures (env : PushEnv) (all_refs : List String)
    (h1 : env.clonePathExists = true) (h2 : env.refsResult = .ok all_refs)
    (h3 : env.raisesExn = false) :
    (push_repository env).result = true := by
  cases hv : (all_refs.filter (fun r => !(r == "") && !(strStartsWith r "refs/pull/"))).isEmpty with
  | true => simp [push_repository, h1, h2, hv]
  | false => simp [push_repository, h1, h2, hv, h3]

/-- C4 witness: with every batch push and every individual retry failing
(`demoPushEnv`), and with zero transferable refs, the push still reports
success. -/
theorem push_repository_success_despite_failures_witness :
    (demoPushEnv.clonePathExists = true ∧ demoPushEnv.raisesExn = false
      ∧ demoPushEnv.refsResult = RefsResult.ok
          ["refs/heads/main", "refs/pull/1/head", "refs/tags/v1", ""])
    ∧ (push_repository demoPushEnv).result = true
    ∧ (push_repository
        { demoPushEnv with refsResult := RefsResult.ok ["refs/pull/7/head"] }).result = true :=
  ⟨⟨rfl, rfl, rfl⟩,
    push_repository_success_despite_failures demoPushEnv
      ["refs/heads/main", "refs/pull/1/head", "refs/tags/v1", ""] rfl rfl rfl,
    push_repository_success_despite_failures
      { demoPushEnv with refsResult := RefsResult.ok ["refs/pull/7/head"] }
      ["refs/pull/7/head"] rfl rfl rfl⟩

/-- C5: a 422 creation response whose message contains `already exists`
(case-insensitively) is treated as success and the pipeline goes on to
clone (and push, when clone and verification succeed); a 422 with any
other message, any status other than 201/422, or a transport exception
makes `create_repository` return `False`, upon which `backup_repository`
aborts the job as failed before any clone. -/
theorem create_repository_idempotent (env envf : JobEnv) (msg : String)
    (hmsg : strContains (strToLower msg) "already exists" = true)
    (h1 : env.mkdirRaises = false) (h2 : env.repoExists = false)
    (h3 : env.createResp = .status 422 msg)
    (hf1 : envf.mkdirRaises = false) (hf2 : envf.repoExists = false)
    (hf3 : create_repository envf.createResp = false) :
    create_repository env.createResp = true
    ∧ Step.cloneRepo ∈ (backup_repository env).steps
    ∧ (env.cloneOutcome = .success → env.validMirror = true →
        Step.pushRepo ∈ (backup_repository env).steps)
    ∧ (∀ m, strContains (strToLower m) "already exists" = false →
        create_repository (.status 422 m) = false)
    ∧ (∀ c m, c ≠ 201 → c ≠ 422 → create_repository (.status c m) = false)
    ∧ create_repository .exn = false
    ∧ (backup_repository envf).success = false
    ∧ Step.cloneRepo ∉ (backup_repository envf).steps := by
  have hcr : create_repository env.createResp = true := by
    rw [h3]
    simp [create_repository, hmsg]
  refine ⟨hcr, ?_, ?_, ?_, ?_, rfl, ?_, ?_⟩
  · cases hco : env.cloneOutcome with
    | failure r => simp [backup_repository, h1, h2, hcr, hco]
    | success =>
      cases hvm : env.validMirror <;> cases hrp : env.raiseDuringPush <;>
        simp [backup_repository, h1, h2, hcr, hco, hvm, hrp]
  · intro hco hvm
    cases hrp : env.raiseDuringPush <;>
      simp [backup_repository, h1, h2, hcr, hco, hvm, hrp]
  · intro m hm
    simp [create_repository, hm]
  · intro c m hc1 hc2
    simp [create_repository, hc1, hc2]
  · simp [backup_repository, hf1, hf2, hf3]
  · simp [backup_repository, hf1, hf2, hf3]

/-- C5 witness: the theorem at the concrete idempotent-creation job and the
concrete fatally-failing one. -/
theorem create_repository_idempotent_witness :
    create_repository (CreateResp.status 422
      "Repository creation failed: name already exists on this account") = true
    ∧ Step.cloneRepo ∈ (backup_repository demoJobEnv).steps
    ∧ Step.pushRepo ∈ (backup_repository demoJobEnv).steps
    ∧ (backup_repository demoJobEnvCreateFail).success = false
    ∧ Step.cloneRepo ∉ (backup_repository demoJobEnvCreateFail).steps := by
  have h := create_repository_idempotent demoJobEnv demoJobEnvCreateFail
    "Repository creation failed: name already exists on this account"
    (by decide) rfl rfl rfl rfl rfl (by decide)
  exact ⟨by decide, h.2.1, h.2.2.1 rfl rfl, h.2.2.2.2.2.2.1, h.2.2.2.2.2.2.2⟩

/-- C2: the cleanup guarantee FAILS on the code.  The early `return False`
paths of `backup_repository` (creation failure at line 329, clone failure
at line 333, verification failure at lines 338/343) skip the cleanup
block entirely: a clone killed by the timeout after creating the target
directory, or a cloned path failing the `refs`/`objects` verification,
leaves the unique clone path on disk with no removal attempted and no
cleanup-failure warning.  Cleanup is attempted only on the
push-completion path and on the exception path (shown in the last two
conjuncts). -/
theorem backup_repository_skips_cleanup_on_early_return :
    ((backup_repository demoJobEnvCloneTimeout).success = false
      ∧ (backup_repository demoJobEnvCloneTimeout).pathExists = true
      ∧ (backup_repository demoJobEnvCloneTimeout).cleanupRun = false)
    ∧ ((backup_repository demoJobEnvBadMirror).success = false
      ∧ (backup_repository demoJobEnvBadMirror).pathExists = true
      ∧ (backup_repository demoJobEnvBadMirror).cleanupRun = false)
    ∧ ((backup_repository demoJobEnv).cleanupRun = true
      ∧ (backup_repository demoJobEnv).pathExists = false)
    ∧ (backup_repository { demoJobEnv with raiseDuringPush := true }).cleanupRun = true := by
  decide

theorem fetch_pages_concat (pages : Nat → PageResp) (pgs : List (List RepoData))
    (p : Nat) (acc : List RepoData) (fuel : Nat)
    (hne : ∀ i (h : i < pgs.length), pages (p + i) = .ok (pgs.get ⟨i, h⟩)
      ∧ pgs.get ⟨i, h⟩ ≠ [])
    (hend : pages (p + pgs.length) = .ok [])
    (hf : pgs.length < fuel) :
    fetch_pages pages fuel p acc = .result (acc ++ pgs.flatten) := by
  induction pgs generalizing p acc fuel with
  | nil =>
    cases fuel with
    | zero => omega
    | succ fuel =>
      have hp : pages p = PageResp.ok [] := by simpa using hend
      rw [fetch_pages, hp]
      simp
  | cons l pgs ih =>
    cases fuel with
    | zero => simp at hf
    | succ fuel =>
      have h0 := hne 0 (by simp)
      have hp : pages p = PageResp.ok l := by simpa using h0.1
      have hl : l ≠ [] := by simpa using h0.2
      cases l with
      | nil => exact absurd rfl hl
      | cons a as =>
        rw [fetch_pages, hp]
        have hrec := ih (p + 1) (acc ++ a :: as) fuel
          (fun i h => by
            have harith : p + 1 + i = p + (i + 1) := by omega
            have hi := hne (i + 1) (by simp only [List.length_cons]; omega)
            rw [harith]
            exact ⟨hi.1, hi.2⟩)
          (by
            have harith : p + 1 + pgs.length = p + ((a :: as) :: pgs).length := by
              simp only [List.length_cons]
              omega
            rw [harith]
            exact hend)
          (by
            simp only [List.length_cons] at hf
            omega)
        simpa [List.append_assoc] using hrec

/-- C6: the lister requests pages sequentially from page 1, stops at the
first empty page, and returns the concatenation of all the non-empty
pages in discovery order: for any host answering pages `p + 0 .. p + n-1`
of `pgs` non-empty and page `p + n` empty, the loop started at page `p`
returns the accumulator extended by `pgs` flattened in order. -/
theorem get_repositories_paginates (pages : Nat → PageResp)
    (pgs : List (List RepoData)) (fuel : Nat)
    (hne : ∀ i (h : i < pgs.length), pages (1 + i) = .ok (pgs.get ⟨i, h⟩)
      ∧ pgs.get ⟨i, h⟩ ≠ [])
    (hend : pages (1 + pgs.length) = .ok [])
    (hf : pgs.length < fuel) :
    get_repositories pages fuel = .result pgs.flatten := by
  have h := fetch_pages_concat pages pgs 1 [] fuel hne hend hf
  simpa [get_repositories] using h

/-- C6 witness: two pages of 100 and 20 repositories followed by an empty
page yield exactly the 120 descriptors in page order with no duplicate
names. -/
theorem get_repositories_paginates_witness :
    get_repositories demoPages 3 = .result (page100 ++ page20)
    ∧ (page100 ++ page20).length = 120
    ∧ ((page100 ++ page20).map RepoData.name).Nodup := by
  refine ⟨?_, by decide, by decide⟩
  have h := get_repositories_paginates demoPages [page100, page20] 3
    (by decide) (by decide) (by decide)
  simpa using h

theorem cleanup_fetch_pages_ne_raised (pre : String) (pages : Nat → PageResp)
    (fuel page : Nat) (acc : List RepoData) :
    cleanup_fetch_pages pre pages fuel page acc ≠ .raised := by
  induction fuel generalizing page acc with
  | zero => simp [cleanup_fetch_pages]
  | succ fuel ih =>
    rw [cleanup_fetch_pages]
    cases pages page with
    | rateLimited => simp
    | exn => simp
    | ok l =>
      cases l with
      | nil => simp
      | cons a as => exact ih (page + 1) _

/-- C10: when the loop of `GitHubCleanup.get_repositories` meets a page
whose request raises a transport error, it returns `[]` and discards the
accumulator holding every page fetched so far; the call signals nothing —
it never re-raises — so its output equals that of a run against an
organization with no matching repositories.  The backup lister
(`fetch_pages`), by contrast, re-raises at the same point. -/
theorem cleanup_get_repositories_swallows_errors (pre : String)
    (pages : Nat → PageResp) (fuel page : Nat) (acc : List RepoData)
    (hf : 0 < fuel) (hexn : pages page = .exn) :
    cleanup_fetch_pages pre pages fuel page acc = .result []
    ∧ cleanup_fetch_pages pre pages fuel page acc
      = cleanup_get_repositories pre (fun _ => PageResp.ok []) fuel
    ∧ (∀ pre2 pages2 fuel2 page2 acc2,
        cleanup_fetch_pages pre2 pages2 fuel2 page2 acc2 ≠ FetchResult.raised)
    ∧ fetch_pages pages fuel page acc = .raised := by
  cases fuel with
  | zero => omega
  | succ fuel =>
    have h1 : cleanup_fetch_pages pre pages (fuel + 1) page acc = .result [] := by
      rw [cleanup_fetch_pages, hexn]
    refine ⟨h1, ?_, fun pre2 pages2 fuel2 page2 acc2 =>
      cleanup_fetch_pages_ne_raised pre2 pages2 fuel2 page2 acc2, ?_⟩
    · rw [h1, cleanup_get_repositories, cleanup_fetch_pages]
    · rw [fetch_pages, hexn]

/-- C10 witness: a first page of two repositories (one carrying the `bk-`
prefix) followed by a transport error on page 2 makes the cleanup lister
return `[]`, identical to a run over an empty organization, while the
backup lister re-raises. -/
theorem cleanup_get_repositories_swallows_errors_witness :
    cleanup_get_repositories "bk-" demoPagesExn 3 = .result []
    ∧ cleanup_fetch_pages "bk-" demoPagesExn 2 2 [demoRepo "bk-x"] = .result []
    ∧ fetch_pages demoPagesExn 2 2 [demoRepo "bk-x", demoRepo "other"] = .raised := by
  have h := cleanup_get_repositories_swallows_errors "bk-" demoPagesExn 2 2
    [demoRepo "bk-x"] (by decide) (by decide)
  exact ⟨by decide, h.1, by decide⟩
